import Mathlib

/-
Verification of the CADlayout generators (CurrentLimitBox and SplineBracket).

The two FreeCAD scripts build solids by a fixed sequence of boolean CSG
operations.  We embed the scripts shallowly:

* coordinates are rationals (floats in the scripts carry exact decimal
  values); the tab angle's cosine and sine are passed as symbolic
  parameters `c` and `s` wherever the script uses `COS_A` / `SIN_A`,
  and a separate real-valued resolver model (`Resolver`) is used for
  trigonometric facts about the direction vectors;
* the solid kernel is opaque, so a `Shape` is the syntax tree of kernel
  calls the script makes (`makeBox`, `makeCylinder`, extrusions, lofts,
  `fuse`, `cut`, `removeSplitter`, `makeFillet`); the order of boolean
  operations is recovered from that tree by `Shape.trace`;
* kernel-produced quantities that the scripts branch on (the solid count
  of the result, the number of classified fillet edges) enter as explicit
  parameters, and the scripts' post-build validation is modelled by
  `BuildCompletion`-valued functions.
-/

namespace CADlayout

/-- A 3D point/vector with rational coordinates (mirrors FreeCAD.Vector). -/
structure Vec3 where
  x : ℚ
  y : ℚ
  z : ℚ
deriving DecidableEq

/-- The kind of primitive solid used as the tool of a boolean operation. -/
inductive ToolKind where
  | box
  | cylinder
  | extrusion
  | loft
deriving DecidableEq

/-- Syntax tree of the kernel calls a build function makes.  Profile-based
solids carry their wire(s) (closed point lists) and sweep vector. -/
inductive Shape where
  | makeBox (dx dy dz : ℚ) (pos : Vec3)
  | makeCylinder (radius height : ℚ) (pos dir : Vec3)
  | extrude (profile : List Vec3) (dir : Vec3)
  | makeLoft (wires : List (List Vec3)) (solid : Bool)
  | translate (a : Shape) (v : Vec3)
  | fuse (a b : Shape)
  | cut (a b : Shape)
  | removeSplitter (a : Shape)
  | makeFillet (a : Shape) (radius : ℚ) (edgeCount : ℕ)

/-- One observable step of the assembly pipeline. -/
inductive PipeStep where
  | fuseStep (tool : ToolKind)
  | cutStep (tool : ToolKind)
  | cleanupStep
  | filletStep
deriving DecidableEq

/-- The primitive kind of a tool shape (composites report their base's kind;
in the scripts every boolean tool is a primitive or a translated primitive). -/
def Shape.toolKind : Shape → ToolKind
  | .makeBox _ _ _ _ => .box
  | .makeCylinder _ _ _ _ => .cylinder
  | .extrude _ _ => .extrusion
  | .makeLoft _ _ => .loft
  | .translate a _ => a.toolKind
  | .fuse a _ => a.toolKind
  | .cut a _ => a.toolKind
  | .removeSplitter a => a.toolKind
  | .makeFillet a _ _ => a.toolKind

/-- The ordered list of pipeline steps performed to produce a shape. -/
def Shape.trace : Shape → List PipeStep
  | .makeBox _ _ _ _ => []
  | .makeCylinder _ _ _ _ => []
  | .extrude _ _ => []
  | .makeLoft _ _ => []
  | .translate a _ => a.trace
  | .fuse a b => a.trace ++ [.fuseStep b.toolKind]
  | .cut a b => a.trace ++ [.cutStep b.toolKind]
  | .removeSplitter a => a.trace ++ [.cleanupStep]
  | .makeFillet a _ _ => a.trace ++ [.filletStep]

/-- How a build function ends: returning the shape (with any printed
diagnostics) or raising an AssertionError. -/
inductive BuildCompletion where
  | returned (diagnostics : List String)
  | assertionError (msg : String)
deriving DecidableEq

namespace SplineBracket

/-! Design parameters of `generate_splinebracket.py` (lines 29-65). -/

def PART_WIDTH : ℚ := 60.0

def PART_DEPTH : ℚ := 60.0

def BOLT_DIAMETER : ℚ := 6.35

def BOLT_RADIUS : ℚ := BOLT_DIAMETER / 2

def HOLDER_HEIGHT : ℚ := 32.0

def HOLDER_FLOOR : ℚ := 10.0

def GROOVE_BOTTOM_WIDTH : ℚ := 40.0

def GROOVE_STRAIGHT_HEIGHT : ℚ := 17.0

def GROOVE_TAPER_HEIGHT : ℚ := 5.0

def GROOVE_TAPER_INSET : ℚ := 5.0

def TONGUE_WIDTH : ℚ := 10.0

def TONGUE_DEPTH : ℚ := 3.0

def FLANGE_THICKNESS : ℚ := 10.0

def LEG_THICKNESS : ℚ := 10.0

def LEG_HEIGHT : ℚ := 120.0

def GUSSET_THICKNESS : ℚ := 5.0

def FILLET_RADIUS : ℚ := 3.0

def VGROOVE_WIDTH : ℚ := 11.0

def VGROOVE_DEPTH : ℚ := 3.0

def HOLDER_BOLT_X : ℚ := PART_WIDTH / 2

def HOLDER_BOLT_Z : ℚ := PART_DEPTH / 2

def LOWER_BOLT_Y : ℚ := -93.0

def LOWER_BOLT_X : ℚ := LEG_THICKNESS / 2

def LOWER_BOLT_Z : ℚ := PART_DEPTH / 2

/-! Derived values (lines 75-99). -/

def GROOVE_X_LEFT : ℚ := (PART_WIDTH - GROOVE_BOTTOM_WIDTH) / 2

def GROOVE_X_RIGHT : ℚ := GROOVE_X_LEFT + GROOVE_BOTTOM_WIDTH

def GROOVE_Y_BOTTOM : ℚ := HOLDER_FLOOR

def GROOVE_Y_TAPER_START : ℚ := GROOVE_Y_BOTTOM + GROOVE_STRAIGHT_HEIGHT

def GROOVE_Y_TOP : ℚ := GROOVE_Y_TAPER_START + GROOVE_TAPER_HEIGHT

def GROOVE_TOP_LEFT : ℚ := GROOVE_X_LEFT + GROOVE_TAPER_INSET

def GROOVE_TOP_RIGHT : ℚ := GROOVE_X_RIGHT - GROOVE_TAPER_INSET

def TONGUE_X_LEFT : ℚ := HOLDER_BOLT_X - TONGUE_WIDTH / 2

def TONGUE_X_RIGHT : ℚ := HOLDER_BOLT_X + TONGUE_WIDTH / 2

def VGROOVE_Z_LEFT : ℚ := LOWER_BOLT_Z - VGROOVE_WIDTH / 2

def VGROOVE_Z_RIGHT : ℚ := LOWER_BOLT_Z + VGROOVE_WIDTH / 2

def GUSSET_V1 : ℚ × ℚ := (LEG_THICKNESS, -FLANGE_THICKNESS)

def GUSSET_V2 : ℚ × ℚ := (PART_WIDTH, -FLANGE_THICKNESS)

def GUSSET_V3 : ℚ × ℚ := (LEG_THICKNESS, -LEG_HEIGHT)

/-! Profiles (wires) used by the two build functions. -/

/-- The 9-point trapezoid groove profile of `build_holder` (lines 115-125). -/
def groove_pts : List Vec3 :=
  [⟨GROOVE_X_LEFT, GROOVE_Y_BOTTOM, 0⟩,
   ⟨GROOVE_X_RIGHT, GROOVE_Y_BOTTOM, 0⟩,
   ⟨GROOVE_X_RIGHT, GROOVE_Y_TAPER_START, 0⟩,
   ⟨GROOVE_TOP_RIGHT, GROOVE_Y_TOP, 0⟩,
   ⟨GROOVE_TOP_RIGHT, GROOVE_Y_TOP + 1, 0⟩,
   ⟨GROOVE_TOP_LEFT, GROOVE_Y_TOP + 1, 0⟩,
   ⟨GROOVE_TOP_LEFT, GROOVE_Y_TOP, 0⟩,
   ⟨GROOVE_X_LEFT, GROOVE_Y_TAPER_START, 0⟩,
   ⟨GROOVE_X_LEFT, GROOVE_Y_BOTTOM, 0⟩]

/-- The triangular V-tongue profile of `build_holder` (lines 132-137). -/
def tongue_pts : List Vec3 :=
  [⟨TONGUE_X_LEFT, 0, 0⟩,
   ⟨TONGUE_X_RIGHT, 0, 0⟩,
   ⟨HOLDER_BOLT_X, -TONGUE_DEPTH, 0⟩,
   ⟨TONGUE_X_LEFT, 0, 0⟩]

/-- The triangular gusset profile of `build_bracket` (lines 179-184). -/
def gusset_pts : List Vec3 :=
  [⟨GUSSET_V1.1, GUSSET_V1.2, 0⟩,
   ⟨GUSSET_V2.1, GUSSET_V2.2, 0⟩,
   ⟨GUSSET_V3.1, GUSSET_V3.2, 0⟩,
   ⟨GUSSET_V1.1, GUSSET_V1.2, 0⟩]

/-- The triangular V-groove cutting profile of `build_bracket`
(lines 197-202): base edge at Y = +1, apex at Y = -VGROOVE_DEPTH. -/
def vgroove_pts : List Vec3 :=
  [⟨0, 1, VGROOVE_Z_LEFT⟩,
   ⟨0, 1, VGROOVE_Z_RIGHT⟩,
   ⟨0, -VGROOVE_DEPTH, LOWER_BOLT_Z⟩,
   ⟨0, 1, VGROOVE_Z_LEFT⟩]

/-- Z coordinate of the left edge of the V-groove cutting triangle at height
`y`: linear interpolation along the profile edge from the base-left vertex
`(1, VGROOVE_Z_LEFT)` of `vgroove_pts` to its apex
`(-VGROOVE_DEPTH, LOWER_BOLT_Z)`. -/
def vgroove_left_z_at (y : ℚ) : ℚ :=
  VGROOVE_Z_LEFT + (1 - y) / (1 + VGROOVE_DEPTH) * (LOWER_BOLT_Z - VGROOVE_Z_LEFT)

/-- Z coordinate of the right edge of the V-groove cutting triangle at height
`y` (interpolated from base-right vertex to apex of `vgroove_pts`). -/
def vgroove_right_z_at (y : ℚ) : ℚ :=
  VGROOVE_Z_RIGHT + (1 - y) / (1 + VGROOVE_DEPTH) * (LOWER_BOLT_Z - VGROOVE_Z_RIGHT)

/-- Width of the V-groove cutting triangle's horizontal chord at height `y`.
At `y = 1` this is the full base width; at `y = 0` it is the width of the
opening actually cut into the flange, whose top surface is at `y = 0`. -/
def vgroove_opening_width_at (y : ℚ) : ℚ :=
  vgroove_right_z_at y - vgroove_left_z_at y

/-- The Spline Holder pipeline of `build_holder` (lines 106-151), as the tree
of kernel calls up to and including the final `removeSplitter`. -/
def build_holder_shape : Shape :=
  let block := Shape.makeBox PART_WIDTH HOLDER_HEIGHT PART_DEPTH ⟨0, 0, 0⟩
  let groove_solid := Shape.extrude groove_pts ⟨0, 0, PART_DEPTH⟩
  let result := block.cut groove_solid
  let tongue_solid := Shape.extrude tongue_pts ⟨0, 0, PART_DEPTH⟩
  let result := result.fuse tongue_solid
  let bolt := Shape.makeCylinder BOLT_RADIUS (HOLDER_FLOOR + TONGUE_DEPTH + 2)
    ⟨HOLDER_BOLT_X, -TONGUE_DEPTH - 1, HOLDER_BOLT_Z⟩ ⟨0, 1, 0⟩
  let result := result.cut bolt
  result.removeSplitter

/-- The Gusset Bracket pipeline of `build_bracket` (lines 159-254), as the
tree of kernel calls.  `filletEdgeCount` is the number of edges the edge
classifier returned (a kernel-dependent quantity); the fillet and the second
`removeSplitter` run only when it is nonzero, mirroring `if fillet_edges:`. -/
def build_bracket_shape (filletEdgeCount : ℕ) : Shape :=
  let flange := Shape.makeBox PART_WIDTH FLANGE_THICKNESS PART_DEPTH ⟨0, -FLANGE_THICKNESS, 0⟩
  let leg := Shape.makeBox LEG_THICKNESS LEG_HEIGHT PART_DEPTH ⟨0, -LEG_HEIGHT, 0⟩
  let bracket := flange.fuse leg
  let gusset1 := Shape.extrude gusset_pts ⟨0, 0, GUSSET_THICKNESS⟩
  let gusset2 := (Shape.extrude gusset_pts ⟨0, 0, GUSSET_THICKNESS⟩).translate
    ⟨0, 0, PART_DEPTH - GUSSET_THICKNESS⟩
  let bracket := bracket.fuse gusset1
  let bracket := bracket.fuse gusset2
  let vgroove_solid := Shape.extrude vgroove_pts ⟨PART_WIDTH, 0, 0⟩
  let bracket := bracket.cut vgroove_solid
  let upper_bolt := Shape.makeCylinder BOLT_RADIUS (FLANGE_THICKNESS + 2)
    ⟨HOLDER_BOLT_X, -FLANGE_THICKNESS - 1, HOLDER_BOLT_Z⟩ ⟨0, 1, 0⟩
  let bracket := bracket.cut upper_bolt
  let lower_bolt := Shape.makeCylinder BOLT_RADIUS (LEG_THICKNESS + 2)
    ⟨-1, LOWER_BOLT_Y, LOWER_BOLT_Z⟩ ⟨1, 0, 0⟩
  let bracket := bracket.cut lower_bolt
  let bracket := bracket.removeSplitter
  if filletEdgeCount ≠ 0 then
    (bracket.makeFillet FILLET_RADIUS filletEdgeCount).removeSplitter
  else
    bracket

/-- End-of-build behaviour of `build_holder` (line 152): the script asserts
that the kernel-reported solid count is 1, so any other count raises. -/
def build_holder_completion (solidCount : ℕ) : BuildCompletion :=
  if solidCount = 1 then
    .returned []
  else
    .assertionError ("Holder has " ++ toString solidCount ++ " solids, expected 1")

/-- Validation behaviour of `build_bracket` (lines 225 and 251-254): an
assertion on the pre-fillet solid count, then, only when the classifier found
edges, the fillet runs and a second assertion checks the post-fillet count. -/
def build_bracket_completion (preFilletCount filletEdgeCount postFilletCount : ℕ) :
    BuildCompletion :=
  if preFilletCount ≠ 1 then
    .assertionError ("Bracket has " ++ toString preFilletCount ++ " solids, expected 1")
  else if filletEdgeCount ≠ 0 then
    if postFilletCount ≠ 1 then
      .assertionError ("Filleted bracket has " ++ toString postFilletCount ++ " solids")
    else
      .returned []
  else
    .returned []

/-! The edge classifier of `build_bracket` (lines 229-249). -/

/-- Geometric data of one kernel edge, as the classifier inspects it:
whether its curve is a straight line, its midpoint, and its length. -/
structure EdgeInfo where
  isLine : Bool
  midx : ℚ
  midy : ℚ
  midz : ℚ
  length : ℚ
deriving DecidableEq

/-- L-junction test (line 237): X near the leg face, Y near the flange
underside, and a minimum length. -/
def isLJunctionEdge (e : EdgeInfo) : Prop :=
  |e.midx - LEG_THICKNESS| < 1 ∧ |e.midy - (-FLANGE_THICKNESS)| < 1 ∧ e.length > 10

/-- Gusset-to-leg test (lines 241-243): X near the leg face, long edge,
Z near one of the two gusset inner faces. -/
def isGussetLegEdge (e : EdgeInfo) : Prop :=
  |e.midx - LEG_THICKNESS| < 1 ∧ e.length > 50 ∧
    (|e.midz - GUSSET_THICKNESS| < 1 ∨ |e.midz - (PART_DEPTH - GUSSET_THICKNESS)| < 1)

/-- Gusset-to-flange test (lines 246-248): Y near the flange underside,
minimum length, Z near one of the two gusset inner faces. -/
def isGussetFlangeEdge (e : EdgeInfo) : Prop :=
  |e.midy - (-FLANGE_THICKNESS)| < 1 ∧ e.length > 10 ∧
    (|e.midz - GUSSET_THICKNESS| < 1 ∨ |e.midz - (PART_DEPTH - GUSSET_THICKNESS)| < 1)

/-- An edge is selected for filleting when its curve is a line and one of the
three role tests matches (the `elif` chain appends each edge at most once, so
the selected set is this disjunction). -/
def selectedForFillet (e : EdgeInfo) : Prop :=
  e.isLine = true ∧ (isLJunctionEdge e ∨ isGussetLegEdge e ∨ isGussetFlangeEdge e)

instance (e : EdgeInfo) : Decidable (selectedForFillet e) := by
  unfold selectedForFillet isLJunctionEdge isGussetLegEdge isGussetFlangeEdge
  infer_instance

/-- Modelled from the spec (section 4.4): the L-junction edge between flange
and leg, as the built geometry places it — along Z at the concave corner
`x = LEG_THICKNESS`, `y = -FLANGE_THICKNESS`, spanning the gap between the
two gussets. -/
def lJunctionRefEdge : EdgeInfo :=
  ⟨true, LEG_THICKNESS, -FLANGE_THICKNESS, PART_DEPTH / 2,
    PART_DEPTH - 2 * GUSSET_THICKNESS⟩

/-- Modelled from the spec (section 4.4): a gusset-to-leg junction edge —
along Y on the leg face `x = LEG_THICKNESS` at a gusset inner face
(`z = GUSSET_THICKNESS` or `z = PART_DEPTH - GUSSET_THICKNESS`), running the
full gusset height. -/
def gussetLegRefEdge (zface : ℚ) : EdgeInfo :=
  ⟨true, LEG_THICKNESS, -(FLANGE_THICKNESS + LEG_HEIGHT) / 2, zface,
    LEG_HEIGHT - FLANGE_THICKNESS⟩

/-- Modelled from the spec (section 4.4): a gusset-to-flange junction edge —
along X on the flange underside `y = -FLANGE_THICKNESS` at a gusset inner
face, running from the leg to the flange tip. -/
def gussetFlangeRefEdge (zface : ℚ) : EdgeInfo :=
  ⟨true, (LEG_THICKNESS + PART_WIDTH) / 2, -FLANGE_THICKNESS, zface,
    PART_WIDTH - LEG_THICKNESS⟩

end SplineBracket

namespace CurrentLimitBox

/-! Design parameters of `generate_currentlimitbox.py` (lines 26-62).
These are the v1.1 values present in the source (box length and strip
offset already revised, chamfer present). -/

def BOX_WIDTH : ℚ := 80.0

def BOX_LENGTH : ℚ := 79.0

def BOX_HEIGHT : ℚ := 17.0

def WALL_THICKNESS : ℚ := 2.0

def TAB_ANGLE : ℚ := 55.0

def TAB_FACE_LENGTH : ℚ := 35.0

def TAB_WALL_THICKNESS : ℚ := 5.0

def POST_RADIUS : ℚ := 1.95

def POST_HEIGHT : ℚ := 6.35

def STRIP_CENTER_Y : ℚ := 54.0

def POST_X_SPACING : ℚ := 57.0

def POST_Y_SPACING : ℚ := 7.88

def BULB_X : ℚ := 20.0

def BULB_HOLE_DIAMETER : ℚ := 15.5

def BULB_NOTCH_WIDTH : ℚ := 3.0

def BULB_NOTCH_DEPTH : ℚ := 4.0

def CLIP_THICKNESS : ℚ := 2.0

def CLIP_WIDTH : ℚ := 10.0

def CLIP_DEPTH : ℚ := 8.0

def CLIP_GAP : ℚ := 0.5

def SWITCH_X : ℚ := 55.0

def SWITCH_CUTOUT_WIDTH : ℚ := 11.8

def SWITCH_CUTOUT_HEIGHT : ℚ := 6.3

def SWITCH_SCREW_SPACING : ℚ := 37.5

def SWITCH_SCREW_DIAMETER : ℚ := 3.2

def SWITCH_CHAMFER_DEPTH : ℚ := 2.0

/-! Derived values (lines 72-106).  The script computes `COS_A` and `SIN_A`
once from `TAB_ANGLE`; their exact values are irrational, so every derived
quantity below takes the cosine `c` and sine `s` as parameters exactly where
the script uses `COS_A` and `SIN_A`. -/

def CAVITY_WIDTH : ℚ := BOX_WIDTH - 2 * WALL_THICKNESS

def CAVITY_LENGTH : ℚ := BOX_LENGTH - 2 * WALL_THICKNESS

def CAVITY_DEPTH : ℚ := BOX_HEIGHT - WALL_THICKNESS

def FLOOR_Z : ℚ := WALL_THICKNESS

def FACE_MID : ℚ := TAB_FACE_LENGTH / 2

def FACE_CENTER_Y (c : ℚ) : ℚ := FACE_MID * c

def FACE_CENTER_Z (s : ℚ) : ℚ := BOX_HEIGHT + FACE_MID * s

def FACE_DIR_Y (c : ℚ) : ℚ := c

def FACE_DIR_Z (s : ℚ) : ℚ := s

def INWARD_DIR_Y (s : ℚ) : ℚ := s

def INWARD_DIR_Z (c : ℚ) : ℚ := -c

def POST_X1 : ℚ := (BOX_WIDTH - POST_X_SPACING) / 2

def POST_X2 : ℚ := POST_X1 + POST_X_SPACING

def POST_Y_HALF : ℚ := POST_Y_SPACING / 2

def BULB_RADIUS : ℚ := BULB_HOLE_DIAMETER / 2

def CLIP_OFFSET_X : ℚ := BULB_RADIUS + CLIP_GAP + CLIP_THICKNESS / 2

def SWITCH_SCREW_X1 : ℚ := SWITCH_X - SWITCH_SCREW_SPACING / 2

def SWITCH_SCREW_X2 : ℚ := SWITCH_X + SWITCH_SCREW_SPACING / 2

def INNER_CENTER_Y (c s : ℚ) : ℚ := FACE_CENTER_Y c + TAB_WALL_THICKNESS * s

def INNER_CENTER_Z (c s : ℚ) : ℚ := FACE_CENTER_Z s - TAB_WALL_THICKNESS * c

namespace Resolver

/-! Real-valued model of the trigonometric derived values (lines 72-73 and
85-89), as functions of the tab angle in degrees.  Used for facts about the
direction vectors that need actual cosine and sine. -/

/-- Degrees to radians, as in `math.radians`. -/
noncomputable def radians (d : ℝ) : ℝ := d * Real.pi / 180

/-- Cosine of the tab angle (line 72), generalized over the angle. -/
noncomputable def COS_A (tabAngle : ℝ) : ℝ := Real.cos (radians tabAngle)

/-- Sine of the tab angle (line 73), generalized over the angle. -/
noncomputable def SIN_A (tabAngle : ℝ) : ℝ := Real.sin (radians tabAngle)

/-- Face-direction Y component (line 86). -/
noncomputable def FACE_DIR_Y (tabAngle : ℝ) : ℝ := COS_A tabAngle

/-- Face-direction Z component (line 87). -/
noncomputable def FACE_DIR_Z (tabAngle : ℝ) : ℝ := SIN_A tabAngle

/-- Inward-normal Y component (line 88). -/
noncomputable def INWARD_DIR_Y (tabAngle : ℝ) : ℝ := SIN_A tabAngle

/-- Inward-normal Z component (line 89). -/
noncomputable def INWARD_DIR_Z (tabAngle : ℝ) : ℝ := -COS_A tabAngle

end Resolver

/-! Profile constructions of `build_model` (lines 113-315). -/

/-- The angled-tab quad (lines 127-138). -/
def tab_profile (c s : ℚ) : List Vec3 :=
  let v1 : Vec3 := ⟨0, 0, BOX_HEIGHT⟩
  let v2 : Vec3 := ⟨0, TAB_FACE_LENGTH * c, BOX_HEIGHT + TAB_FACE_LENGTH * s⟩
  let v3 : Vec3 := ⟨0, v2.y + TAB_WALL_THICKNESS * s, v2.z - TAB_WALL_THICKNESS * c⟩
  let v4 : Vec3 := ⟨0, v1.y + TAB_WALL_THICKNESS * s, v1.z - TAB_WALL_THICKNESS * c⟩
  [v1, v2, v3, v4, v1]

/-- The 2x2 grid of mounting-post base points (lines 144-148). -/
def post_positions : List Vec3 :=
  [POST_X1, POST_X2].flatMap fun px =>
    [-POST_Y_HALF, POST_Y_HALF].map fun py_offset =>
      ⟨px, STRIP_CENTER_Y + py_offset, FLOOR_Z⟩

/-- One bulb pin-notch quad (lines 164-184), for `sign` in `{-1, 1}`. -/
def notch_profile (c s sign : ℚ) : List Vec3 :=
  let nc_offset := BULB_RADIUS + BULB_NOTCH_DEPTH / 2
  let nc_y := FACE_CENTER_Y c + sign * nc_offset * FACE_DIR_Y c
  let nc_z := FACE_CENTER_Z s + sign * nc_offset * FACE_DIR_Z s
  let hw := BULB_NOTCH_WIDTH / 2
  let hd := BULB_NOTCH_DEPTH / 2
  let p1 : Vec3 := ⟨BULB_X - hw, nc_y - hd * FACE_DIR_Y c - 2 * s, nc_z - hd * FACE_DIR_Z s + 2 * c⟩
  let p2 : Vec3 := ⟨BULB_X - hw, nc_y + hd * FACE_DIR_Y c - 2 * s, nc_z + hd * FACE_DIR_Z s + 2 * c⟩
  let p3 : Vec3 := ⟨BULB_X + hw, nc_y + hd * FACE_DIR_Y c - 2 * s, nc_z + hd * FACE_DIR_Z s + 2 * c⟩
  let p4 : Vec3 := ⟨BULB_X + hw, nc_y - hd * FACE_DIR_Y c - 2 * s, nc_z - hd * FACE_DIR_Z s + 2 * c⟩
  [p1, p2, p3, p4, p1]

/-- Far-end face height of the tapered friction-clip wedge (lines 228-230),
generalized over the clip width `w`, clip depth `d` and tab-angle cosine `c`:
`w - d * c`, clamped below at 1. -/
def far_face_height (w d c : ℚ) : ℚ :=
  if w - d * c < 1 then 1 else w - d * c

/-- Clip trapezoid, near-face bottom P1 in the YZ plane (lines 203-204). -/
def clip_p1 (c s : ℚ) : ℚ × ℚ :=
  (INNER_CENTER_Y c s - (CLIP_WIDTH / 2) * FACE_DIR_Y c,
   INNER_CENTER_Z c s - (CLIP_WIDTH / 2) * FACE_DIR_Z s)

/-- Clip trapezoid, near-face top P2 (lines 207-208). -/
def clip_p2 (c s : ℚ) : ℚ × ℚ :=
  (INNER_CENTER_Y c s + (CLIP_WIDTH / 2) * FACE_DIR_Y c,
   INNER_CENTER_Z c s + (CLIP_WIDTH / 2) * FACE_DIR_Z s)

/-- Clip trapezoid, far-end bottom P4: the script first computes a normal
projection (lines 211-212) but immediately overwrites it (lines 222-223) so
that P4 keeps P1's Z and travels inward horizontally. -/
def clip_p4 (c s : ℚ) : ℚ × ℚ :=
  ((clip_p1 c s).1 + CLIP_DEPTH * s, (clip_p1 c s).2)

/-- Clip trapezoid, far-end top P3 (lines 231-232): up from P4 along the face
direction by the clamped far-end face height. -/
def clip_p3 (c s : ℚ) : ℚ × ℚ :=
  ((clip_p4 c s).1 + far_face_height CLIP_WIDTH CLIP_DEPTH c * FACE_DIR_Y c,
   (clip_p4 c s).2 + far_face_height CLIP_WIDTH CLIP_DEPTH c * FACE_DIR_Z s)

/-- The clip trapezoid wire (lines 234-241), for `sign` in `{-1, 1}`. -/
def clip_profile (c s sign : ℚ) : List Vec3 :=
  let x_off := BULB_X + sign * CLIP_OFFSET_X - CLIP_THICKNESS / 2
  [⟨x_off, (clip_p1 c s).1, (clip_p1 c s).2⟩,
   ⟨x_off, (clip_p2 c s).1, (clip_p2 c s).2⟩,
   ⟨x_off, (clip_p3 c s).1, (clip_p3 c s).2⟩,
   ⟨x_off, (clip_p4 c s).1, (clip_p4 c s).2⟩,
   ⟨x_off, (clip_p1 c s).1, (clip_p1 c s).2⟩]

/-- Half-width of the switch cutout (line 247). -/
def sw_hw : ℚ := SWITCH_CUTOUT_WIDTH / 2

/-- Half-height of the switch cutout (line 248). -/
def sw_hh : ℚ := SWITCH_CUTOUT_HEIGHT / 2

/-- The switch cutout quad (lines 250-263). -/
def switch_cutout_profile (c s : ℚ) : List Vec3 :=
  let p1 : Vec3 := ⟨SWITCH_X - sw_hw, FACE_CENTER_Y c - sw_hh * FACE_DIR_Y c - 2 * s,
    FACE_CENTER_Z s - sw_hh * FACE_DIR_Z s + 2 * c⟩
  let p2 : Vec3 := ⟨SWITCH_X - sw_hw, FACE_CENTER_Y c + sw_hh * FACE_DIR_Y c - 2 * s,
    FACE_CENTER_Z s + sw_hh * FACE_DIR_Z s + 2 * c⟩
  let p3 : Vec3 := ⟨SWITCH_X + sw_hw, FACE_CENTER_Y c + sw_hh * FACE_DIR_Y c - 2 * s,
    FACE_CENTER_Z s + sw_hh * FACE_DIR_Z s + 2 * c⟩
  let p4 : Vec3 := ⟨SWITCH_X + sw_hw, FACE_CENTER_Y c - sw_hh * FACE_DIR_Y c - 2 * s,
    FACE_CENTER_Z s - sw_hh * FACE_DIR_Z s + 2 * c⟩
  [p1, p2, p3, p4, p1]

/-- Outer half-width of the chamfer loft (line 275). -/
def outer_hw : ℚ := (SWITCH_CUTOUT_WIDTH + 2 * SWITCH_CHAMFER_DEPTH) / 2

/-- Outer half-height of the chamfer loft (line 276). -/
def outer_hh : ℚ := (SWITCH_CUTOUT_HEIGHT + 2 * SWITCH_CHAMFER_DEPTH) / 2

/-- A corner of the chamfer's outer loop (lines 278-285): on the outer tab
face surface, offset `sx` along X and `sy` along the face direction. -/
def chamfer_outer_pt (c s sx sy : ℚ) : Vec3 :=
  ⟨SWITCH_X + sx,
   FACE_CENTER_Y c + sy * FACE_DIR_Y c,
   FACE_CENTER_Z s + sy * FACE_DIR_Z s⟩

/-- A corner of the chamfer's inner loop (lines 290-297): at the original
cutout size, pushed into the wall along the inward normal by the chamfer
depth. -/
def chamfer_inner_pt (c s sx sy : ℚ) : Vec3 :=
  ⟨SWITCH_X + sx,
   FACE_CENTER_Y c + sy * FACE_DIR_Y c + SWITCH_CHAMFER_DEPTH * INWARD_DIR_Y s,
   FACE_CENTER_Z s + sy * FACE_DIR_Z s + SWITCH_CHAMFER_DEPTH * INWARD_DIR_Z c⟩

/-- The outer chamfer loop wire (lines 278-287), corner order as in the
script, first point repeated to close. -/
def chamfer_outer_loop (c s : ℚ) : List Vec3 :=
  [chamfer_outer_pt c s (-outer_hw) (-outer_hh),
   chamfer_outer_pt c s (-outer_hw) outer_hh,
   chamfer_outer_pt c s outer_hw outer_hh,
   chamfer_outer_pt c s outer_hw (-outer_hh),
   chamfer_outer_pt c s (-outer_hw) (-outer_hh)]

/-- The inner chamfer loop wire (lines 290-299). -/
def chamfer_inner_loop (c s : ℚ) : List Vec3 :=
  [chamfer_inner_pt c s (-sw_hw) (-sw_hh),
   chamfer_inner_pt c s (-sw_hw) sw_hh,
   chamfer_inner_pt c s sw_hw sw_hh,
   chamfer_inner_pt c s sw_hw (-sw_hh),
   chamfer_inner_pt c s (-sw_hw) (-sw_hh)]

/-- The original-cutout-size rectangle on the outer face surface (the inner
loop before its inward offset; used to state the chamfer invariant). -/
def chamfer_face_cutout_loop (c s : ℚ) : List Vec3 :=
  [chamfer_outer_pt c s (-sw_hw) (-sw_hh),
   chamfer_outer_pt c s (-sw_hw) sw_hh,
   chamfer_outer_pt c s sw_hw sw_hh,
   chamfer_outer_pt c s sw_hw (-sw_hh),
   chamfer_outer_pt c s (-sw_hw) (-sw_hh)]

/-- Translation of a point along the inward normal by distance `t`. -/
def translate_inward (c s t : ℚ) (p : Vec3) : Vec3 :=
  ⟨p.x, p.y + t * INWARD_DIR_Y s, p.z + t * INWARD_DIR_Z c⟩

/-- Signed coordinate of a point along the face direction, measured from the
face center in the YZ plane. -/
def faceCoord (c s : ℚ) (p : Vec3) : ℚ :=
  (p.y - FACE_CENTER_Y c) * FACE_DIR_Y c + (p.z - FACE_CENTER_Z s) * FACE_DIR_Z s

/-- Signed coordinate of a point along the inward normal, measured from the
face center in the YZ plane; points on the outer face surface have inward
coordinate 0. -/
def inwardCoord (c s : ℚ) (p : Vec3) : ℚ :=
  (p.y - FACE_CENTER_Y c) * INWARD_DIR_Y s + (p.z - FACE_CENTER_Z s) * INWARD_DIR_Z c

/-- The CurrentLimitBox pipeline of `build_model` (lines 113-318), as the
tree of kernel calls up to and including the final `removeSplitter`, with
`c`, `s` the tab-angle cosine and sine. -/
def build_model_shape (c s : ℚ) : Shape :=
  let box := Shape.makeBox BOX_WIDTH BOX_LENGTH BOX_HEIGHT ⟨0, 0, 0⟩
  let cavity := Shape.makeBox CAVITY_WIDTH CAVITY_LENGTH CAVITY_DEPTH
    ⟨WALL_THICKNESS, WALL_THICKNESS, WALL_THICKNESS⟩
  let result := box.cut cavity
  let tab := Shape.extrude (tab_profile c s) ⟨BOX_WIDTH, 0, 0⟩
  let result := result.fuse tab
  let result := post_positions.foldl
    (fun r pos => r.fuse (Shape.makeCylinder POST_RADIUS POST_HEIGHT pos ⟨0, 0, 1⟩)) result
  let hole := Shape.makeCylinder BULB_RADIUS 10.0
    ⟨BULB_X, FACE_CENTER_Y c - 2 * s, FACE_CENTER_Z s + 2 * c⟩
    ⟨0, INWARD_DIR_Y s, INWARD_DIR_Z c⟩
  let result := result.cut hole
  let result := [(-1 : ℚ), 1].foldl
    (fun r sign => r.cut (Shape.extrude (notch_profile c s sign) ⟨0, 10 * s, -(10 * c)⟩)) result
  let result := [(-1 : ℚ), 1].foldl
    (fun r sign => r.fuse (Shape.extrude (clip_profile c s sign) ⟨CLIP_THICKNESS, 0, 0⟩)) result
  let sw_cutout := Shape.extrude (switch_cutout_profile c s) ⟨0, 10 * s, -(10 * c)⟩
  let result := result.cut sw_cutout
  let chamfer_loft := Shape.makeLoft [chamfer_outer_loop c s, chamfer_inner_loop c s] true
  let result := result.cut chamfer_loft
  let result := [SWITCH_SCREW_X1, SWITCH_SCREW_X2].foldl
    (fun r sx => r.cut (Shape.makeCylinder (SWITCH_SCREW_DIAMETER / 2) 10.0
      ⟨sx, FACE_CENTER_Y c - 2 * s, FACE_CENTER_Z s + 2 * c⟩
      ⟨0, INWARD_DIR_Y s, INWARD_DIR_Z c⟩)) result
  result.removeSplitter

/-- End-of-build behaviour of `build_model` (lines 320-324): a warning is
printed when the kernel-reported solid count differs from 1, and the shape
is returned in every case — there is no assertion in this build function. -/
def build_model_completion (solidCount : ℕ) : BuildCompletion :=
  if solidCount ≠ 1 then
    .returned ["WARNING: Expected 1 solid, got " ++ toString solidCount]
  else
    .returned []

/-- Modelled from the spec: the legacy variant-1 box length.  The source
tree holds only the revised v1.1 parameter block (`BOX_LENGTH = 79.0`,
"was 49mm"); the spec records the variant-1 outer envelope as 80x49x17. -/
def BOX_LENGTH_V1 : ℚ := 49

/-- Modelled from the spec: variant-1 cavity width, by the source's cavity
derivation rule (line 75) applied to the variant-1 parameters. -/
def CAVITY_WIDTH_V1 : ℚ := BOX_WIDTH - 2 * WALL_THICKNESS

/-- Modelled from the spec: variant-1 cavity length, by the source's cavity
derivation rule (line 76) applied to the variant-1 parameters. -/
def CAVITY_LENGTH_V1 : ℚ := BOX_LENGTH_V1 - 2 * WALL_THICKNESS

/-- Modelled from the spec: variant-1 cavity depth, by the source's cavity
derivation rule (line 77) applied to the variant-1 parameters. -/
def CAVITY_DEPTH_V1 : ℚ := BOX_HEIGHT - WALL_THICKNESS

end CurrentLimitBox

/-- The fixed feature order the spec (section 4.3) lists for the box
variant, as a structural trace: base shell (block minus cavity), fuse tab,
fuse the four mounting posts, cut the primary (bulb) hole, cut the two
secondary notches, fuse the two friction clips, cut the secondary (switch)
cutout, cut the chamfer loft, cut the two screw holes, then the cleanup
pass. -/
def spec_box_feature_order : List PipeStep :=
  [.cutStep .box,
   .fuseStep .extrusion,
   .fuseStep .cylinder, .fuseStep .cylinder, .fuseStep .cylinder, .fuseStep .cylinder,
   .cutStep .cylinder,
   .cutStep .extrusion, .cutStep .extrusion,
   .fuseStep .extrusion, .fuseStep .extrusion,
   .cutStep .extrusion,
   .cutStep .loft,
   .cutStep .cylinder, .cutStep .cylinder,
   .cleanupStep]

/-- The bracket-variant order the spec (section 4.3) claims, as a structural
trace following the spec's words: base shell (flange fused with leg), cut
V-groove, cut the two bolt holes, fuse the two gussets, then cleanup, fillet
and the post-fillet cleanup.  Stated for comparison with the source's actual
order. -/
def spec_claimed_bracket_feature_order : List PipeStep :=
  [.fuseStep .box,
   .cutStep .extrusion,
   .cutStep .cylinder, .cutStep .cylinder,
   .fuseStep .extrusion, .fuseStep .extrusion,
   .cleanupStep,
   .filletStep,
   .cleanupStep]

end CADlayout

namespace CADlayout

namespace SplineBracket

/-- The five reference edges of spec section 4.4 are all selected by the
classifier predicate embedded from the source. -/
theorem five_reference_edges_selected :
    selectedForFillet lJunctionRefEdge ∧
    selectedForFillet (gussetLegRefEdge GUSSET_THICKNESS) ∧
    selectedForFillet (gussetLegRefEdge (PART_DEPTH - GUSSET_THICKNESS)) ∧
    selectedForFillet (gussetFlangeRefEdge GUSSET_THICKNESS) ∧
    selectedForFillet (gussetFlangeRefEdge (PART_DEPTH - GUSSET_THICKNESS)) := by
  refine ⟨⟨rfl, Or.inl ?_⟩, ⟨rfl, Or.inr (Or.inl ?_)⟩, ⟨rfl, Or.inr (Or.inl ?_)⟩,
    ⟨rfl, Or.inr (Or.inr ?_)⟩, ⟨rfl, Or.inr (Or.inr ?_)⟩⟩ <;>
    norm_num [isLJunctionEdge, isGussetLegEdge, isGussetFlangeEdge, lJunctionRefEdge,
      gussetLegRefEdge, gussetFlangeRefEdge, PART_WIDTH, PART_DEPTH, LEG_THICKNESS,
      FLANGE_THICKNESS, LEG_HEIGHT, GUSSET_THICKNESS]

/-- The leg's bottom boundary edge on the leg face (length exactly 50) is
not selected: the gusset-to-leg branch requires a length strictly above 50
and the other branches fail on its coordinates. -/
theorem leg_bottom_edge_not_selected :
    ¬ selectedForFillet ⟨true, LEG_THICKNESS, -LEG_HEIGHT, PART_DEPTH / 2,
      PART_DEPTH - 2 * GUSSET_THICKNESS⟩ := by
  norm_num [selectedForFillet, isLJunctionEdge, isGussetLegEdge, isGussetFlangeEdge,
    PART_DEPTH, LEG_THICKNESS, FLANGE_THICKNESS, LEG_HEIGHT, GUSSET_THICKNESS]

end SplineBracket

namespace CurrentLimitBox

/-- The source's derived cavity dimensions for the parameter block actually
present in the source (v1.1, box length 79). -/
theorem source_cavity_dimensions :
    CAVITY_WIDTH = 76 ∧ CAVITY_LENGTH = 75 ∧ CAVITY_DEPTH = 15 ∧ BOX_LENGTH = 79 := by
  norm_num [CAVITY_WIDTH, CAVITY_LENGTH, CAVITY_DEPTH, BOX_WIDTH, BOX_LENGTH,
    BOX_HEIGHT, WALL_THICKNESS]

/-- The spec-modelled variant-1 parameters satisfy the spec's dimensional
expectations under the source's derivation rules: outer envelope 80x49x17,
cavity 76x45x15. -/
theorem variant1_cavity_dimensions :
    BOX_WIDTH = 80 ∧ BOX_LENGTH_V1 = 49 ∧ BOX_HEIGHT = 17 ∧
    CAVITY_WIDTH_V1 = 76 ∧ CAVITY_LENGTH_V1 = 45 ∧ CAVITY_DEPTH_V1 = 15 := by
  norm_num [CAVITY_WIDTH_V1, CAVITY_LENGTH_V1, CAVITY_DEPTH_V1, BOX_WIDTH,
    BOX_LENGTH_V1, BOX_HEIGHT, WALL_THICKNESS]

/-- Inward coordinate of any outer chamfer loop corner is zero: the outer
loop lies on the outer tab face surface (no trigonometric identity needed). -/
theorem inwardCoord_chamfer_outer_pt (c s sx sy : ℚ) :
    inwardCoord c s (chamfer_outer_pt c s sx sy) = 0 := by
  simp only [inwardCoord, chamfer_outer_pt, INWARD_DIR_Y, INWARD_DIR_Z,
    FACE_DIR_Y, FACE_DIR_Z]
  ring

/-- Inward coordinate of any inner chamfer loop corner is the chamfer depth,
given the Pythagorean relation between the tab-angle cosine and sine. -/
theorem inwardCoord_chamfer_inner_pt {c s : ℚ} (h : c * c + s * s = 1) (sx sy : ℚ) :
    inwardCoord c s (chamfer_inner_pt c s sx sy) = SWITCH_CHAMFER_DEPTH := by
  simp only [inwardCoord, chamfer_inner_pt, INWARD_DIR_Y, INWARD_DIR_Z,
    FACE_DIR_Y, FACE_DIR_Z]
  linear_combination SWITCH_CHAMFER_DEPTH * h

/-- Face coordinate of an outer chamfer loop corner is its face offset. -/
theorem faceCoord_chamfer_outer_pt {c s : ℚ} (h : c * c + s * s = 1) (sx sy : ℚ) :
    faceCoord c s (chamfer_outer_pt c s sx sy) = sy := by
  simp only [faceCoord, chamfer_outer_pt, FACE_DIR_Y, FACE_DIR_Z]
  linear_combination sy * h

/-- Face coordinate of an inner chamfer loop corner is its face offset: the
inward translation does not move points along the face. -/
theorem faceCoord_chamfer_inner_pt {c s : ℚ} (h : c * c + s * s = 1) (sx sy : ℚ) :
    faceCoord c s (chamfer_inner_pt c s sx sy) = sy := by
  simp only [faceCoord, chamfer_inner_pt, FACE_DIR_Y, FACE_DIR_Z,
    INWARD_DIR_Y, INWARD_DIR_Z]
  linear_combination sy * h

end CurrentLimitBox

/-- Claim C1 counterexample: at a kernel-reported solid count of 2,
`build_holder` raises an AssertionError instead of warning and returning —
the holder and bracket variants abort on a multi-solid result. -/
theorem c1_holder_asserts_counterexample :
    SplineBracket.build_holder_completion 2 =
      BuildCompletion.assertionError "Holder has 2 solids, expected 1" := by
  rfl

/-- Claim C1, amended: when the resulting shape does not resolve to exactly
one connected solid, `build_model` does not abort — it emits a warning
diagnostic and still returns the shape — but `build_holder` and
`build_bracket` abort with an AssertionError. -/
theorem c1_completion_behavior (n fe pc : ℕ) (hn : n ≠ 1) :
    CurrentLimitBox.build_model_completion n =
      BuildCompletion.returned ["WARNING: Expected 1 solid, got " ++ toString n] ∧
    SplineBracket.build_holder_completion n =
      BuildCompletion.assertionError ("Holder has " ++ toString n ++ " solids, expected 1") ∧
    SplineBracket.build_bracket_completion n fe pc =
      BuildCompletion.assertionError ("Bracket has " ++ toString n ++ " solids, expected 1") := by
  refine ⟨?_, ?_, ?_⟩
  · simp [CurrentLimitBox.build_model_completion, hn]
  · simp [SplineBracket.build_holder_completion, hn]
  · simp [SplineBracket.build_bracket_completion, hn]

/-- Witness for the amended claim C1, at solid count 2. -/
theorem c1_completion_behavior_witness :
    (2 : ℕ) ≠ 1 ∧
    (CurrentLimitBox.build_model_completion 2 =
      BuildCompletion.returned ["WARNING: Expected 1 solid, got " ++ toString 2] ∧
    SplineBracket.build_holder_completion 2 =
      BuildCompletion.assertionError ("Holder has " ++ toString 2 ++ " solids, expected 1") ∧
    SplineBracket.build_bracket_completion 2 0 1 =
      BuildCompletion.assertionError ("Bracket has " ++ toString 2 ++ " solids, expected 1")) :=
  ⟨by decide, c1_completion_behavior 2 0 1 (by decide)⟩

/-- Claim C2 counterexample: with a nonzero classified-edge count, the trace
of `build_bracket` differs from the spec's claimed bracket order (the two
traces hold the same steps, but the source fuses the gussets before cutting
the V-groove and bolt holes, not after). -/
theorem c2_bracket_order_counterexample :
    (SplineBracket.build_bracket_shape 5).trace ≠ spec_claimed_bracket_feature_order := by
  decide

/-- Claim C2, amended: the box pipeline applies its operations exactly in
the spec's order (base shell, fuse tab, fuse posts, cut primary hole, cut
notches, fuse clips, cut secondary cutout, cut chamfer loft, cut screw
holes, cleanup); the bracket pipeline fuses its gussets first, then cuts
the V-groove, then the bolt holes, then cleans up, fillets, and cleans up
again. -/
theorem c2_pipeline_order (c s : ℚ) (n : ℕ) (hn : n ≠ 0) :
    (CurrentLimitBox.build_model_shape c s).trace = spec_box_feature_order ∧
    (SplineBracket.build_bracket_shape n).trace =
      [.fuseStep .box,
       .fuseStep .extrusion, .fuseStep .extrusion,
       .cutStep .extrusion,
       .cutStep .cylinder, .cutStep .cylinder,
       .cleanupStep,
       .filletStep,
       .cleanupStep] := by
  constructor
  · rfl
  · cases n with
    | zero => exact absurd rfl hn
    | succ m => rfl

/-- Witness for the amended claim C2, at a classified-edge count of 5. -/
theorem c2_pipeline_order_witness :
    (5 : ℕ) ≠ 0 ∧
    ((CurrentLimitBox.build_model_shape 1 0).trace = spec_box_feature_order ∧
    (SplineBracket.build_bracket_shape 5).trace =
      [.fuseStep .box,
       .fuseStep .extrusion, .fuseStep .extrusion,
       .cutStep .extrusion,
       .cutStep .cylinder, .cutStep .cylinder,
       .cleanupStep,
       .filletStep,
       .cleanupStep]) :=
  ⟨by decide, c2_pipeline_order 1 0 5 (by decide)⟩

/-- Claim C5: for every tab angle, the derived face-direction vector
(cos A, sin A) and inward-normal vector (sin A, -cos A) are unit-length and
mutually orthogonal. -/
theorem c5_face_inward_unit_orthogonal (A : ℝ) :
    CurrentLimitBox.Resolver.FACE_DIR_Y A ^ 2 + CurrentLimitBox.Resolver.FACE_DIR_Z A ^ 2 = 1 ∧
    CurrentLimitBox.Resolver.INWARD_DIR_Y A ^ 2 + CurrentLimitBox.Resolver.INWARD_DIR_Z A ^ 2 = 1 ∧
    CurrentLimitBox.Resolver.FACE_DIR_Y A * CurrentLimitBox.Resolver.INWARD_DIR_Y A +
      CurrentLimitBox.Resolver.FACE_DIR_Z A * CurrentLimitBox.Resolver.INWARD_DIR_Z A = 0 := by
  have h := Real.sin_sq_add_cos_sq (CurrentLimitBox.Resolver.radians A)
  refine ⟨?_, ?_, ?_⟩ <;>
    simp only [CurrentLimitBox.Resolver.FACE_DIR_Y, CurrentLimitBox.Resolver.FACE_DIR_Z,
      CurrentLimitBox.Resolver.INWARD_DIR_Y, CurrentLimitBox.Resolver.INWARD_DIR_Z,
      CurrentLimitBox.Resolver.COS_A, CurrentLimitBox.Resolver.SIN_A]
  · linarith [h]
  · nlinarith [h]
  · ring

/-- Claim C7: for all clip width, clip depth and tab-angle cosine inputs,
the far-end face height of the tapered friction-clip wedge is at least 1,
and it equals the clip width minus clip depth times the cosine, clamped
below at 1. -/
theorem c7_far_face_height_clamped (w d c : ℚ) :
    1 ≤ CurrentLimitBox.far_face_height w d c ∧
    CurrentLimitBox.far_face_height w d c = max (w - d * c) 1 := by
  unfold CurrentLimitBox.far_face_height
  rcases lt_or_le (w - d * c) 1 with h | h
  · rw [if_pos h, max_eq_right h.le]
    exact ⟨le_refl 1, rfl⟩
  · rw [if_neg (not_lt.mpr h), max_eq_left h]
    exact ⟨h, rfl⟩

/-- Claim C8: in the tapered clip trapezoid, the near-face bottom vertex P1
and the far-end bottom vertex P4 have equal Z (the long bottom edge stays at
constant height across the clip's depth), while for a non-degenerate tab
angle (positive cosine and sine) the opposite edge tapers: the far-end top
P3 sits strictly below the near-face top P2. -/
theorem c8_clip_bottom_constant (c s : ℚ) (hc : 0 < c) (hs : 0 < s) :
    (CurrentLimitBox.clip_p1 c s).2 = (CurrentLimitBox.clip_p4 c s).2 ∧
    (CurrentLimitBox.clip_p3 c s).2 < (CurrentLimitBox.clip_p2 c s).2 := by
  refine ⟨rfl, ?_⟩
  simp only [CurrentLimitBox.clip_p1, CurrentLimitBox.clip_p2, CurrentLimitBox.clip_p3,
    CurrentLimitBox.clip_p4, CurrentLimitBox.far_face_height, CurrentLimitBox.INNER_CENTER_Z,
    CurrentLimitBox.FACE_CENTER_Z, CurrentLimitBox.FACE_DIR_Z, CurrentLimitBox.FACE_DIR_Y,
    CurrentLimitBox.CLIP_WIDTH, CurrentLimitBox.CLIP_DEPTH, CurrentLimitBox.TAB_WALL_THICKNESS,
    CurrentLimitBox.BOX_HEIGHT, CurrentLimitBox.FACE_MID, CurrentLimitBox.TAB_FACE_LENGTH]
  split_ifs with h <;> nlinarith [hc, hs, mul_pos hc hs]

/-- Witness for claim C8, at cosine 1 and sine 1. -/
theorem c8_clip_bottom_constant_witness :
    (0 : ℚ) < 1 ∧ (0 : ℚ) < 1 ∧
    ((CurrentLimitBox.clip_p1 1 1).2 = (CurrentLimitBox.clip_p4 1 1).2 ∧
     (CurrentLimitBox.clip_p3 1 1).2 < (CurrentLimitBox.clip_p2 1 1).2) :=
  ⟨by decide, by decide, c8_clip_bottom_constant 1 1 (by decide) (by decide)⟩

/-- Claim C9: in the switch-chamfer loft, the outer loop lies on the true
outer face surface (inward coordinate 0 at every corner), the inner loop
sits at chamfer depth into the wall (inward coordinate = chamfer depth at
every corner) and is the original-cutout-size rectangle translated inward
by the chamfer depth, and the outer loop's half-dimensions exceed the inner
loop's by the chamfer depth on each axis (so each outer dimension is the
inner dimension plus twice the chamfer depth). -/
theorem c9_chamfer_loft_invariant (c s : ℚ) (h : c * c + s * s = 1) :
    (CurrentLimitBox.chamfer_outer_loop c s).map (CurrentLimitBox.inwardCoord c s) =
      List.replicate 5 0 ∧
    (CurrentLimitBox.chamfer_inner_loop c s).map (CurrentLimitBox.inwardCoord c s) =
      List.replicate 5 CurrentLimitBox.SWITCH_CHAMFER_DEPTH ∧
    (CurrentLimitBox.chamfer_outer_loop c s).map (CurrentLimitBox.faceCoord c s) =
      [-CurrentLimitBox.outer_hh, CurrentLimitBox.outer_hh, CurrentLimitBox.outer_hh,
       -CurrentLimitBox.outer_hh, -CurrentLimitBox.outer_hh] ∧
    (CurrentLimitBox.chamfer_inner_loop c s).map (CurrentLimitBox.faceCoord c s) =
      [-CurrentLimitBox.sw_hh, CurrentLimitBox.sw_hh, CurrentLimitBox.sw_hh,
       -CurrentLimitBox.sw_hh, -CurrentLimitBox.sw_hh] ∧
    CurrentLimitBox.chamfer_inner_loop c s =
      (CurrentLimitBox.chamfer_face_cutout_loop c s).map
        (CurrentLimitBox.translate_inward c s CurrentLimitBox.SWITCH_CHAMFER_DEPTH) ∧
    CurrentLimitBox.outer_hw = CurrentLimitBox.sw_hw + CurrentLimitBox.SWITCH_CHAMFER_DEPTH ∧
    CurrentLimitBox.outer_hh = CurrentLimitBox.sw_hh + CurrentLimitBox.SWITCH_CHAMFER_DEPTH := by
  refine ⟨?_, ?_, ?_, ?_, rfl, ?_, ?_⟩
  · simp [CurrentLimitBox.chamfer_outer_loop, CurrentLimitBox.inwardCoord_chamfer_outer_pt,
      List.replicate]
  · simp [CurrentLimitBox.chamfer_inner_loop, CurrentLimitBox.inwardCoord_chamfer_inner_pt h,
      List.replicate]
  · simp [CurrentLimitBox.chamfer_outer_loop, CurrentLimitBox.faceCoord_chamfer_outer_pt h]
  · simp [CurrentLimitBox.chamfer_inner_loop, CurrentLimitBox.faceCoord_chamfer_inner_pt h]
  · norm_num [CurrentLimitBox.outer_hw, CurrentLimitBox.sw_hw,
      CurrentLimitBox.SWITCH_CUTOUT_WIDTH, CurrentLimitBox.SWITCH_CHAMFER_DEPTH]
  · norm_num [CurrentLimitBox.outer_hh, CurrentLimitBox.sw_hh,
      CurrentLimitBox.SWITCH_CUTOUT_HEIGHT, CurrentLimitBox.SWITCH_CHAMFER_DEPTH]

/-- Witness for claim C9, at cosine 1 and sine 0. -/
theorem c9_chamfer_loft_invariant_witness :
    (1 : ℚ) * 1 + 0 * 0 = 1 ∧
    ((CurrentLimitBox.chamfer_outer_loop 1 0).map (CurrentLimitBox.inwardCoord 1 0) =
      List.replicate 5 0 ∧
    (CurrentLimitBox.chamfer_inner_loop 1 0).map (CurrentLimitBox.inwardCoord 1 0) =
      List.replicate 5 CurrentLimitBox.SWITCH_CHAMFER_DEPTH ∧
    (CurrentLimitBox.chamfer_outer_loop 1 0).map (CurrentLimitBox.faceCoord 1 0) =
      [-CurrentLimitBox.outer_hh, CurrentLimitBox.outer_hh, CurrentLimitBox.outer_hh,
       -CurrentLimitBox.outer_hh, -CurrentLimitBox.outer_hh] ∧
    (CurrentLimitBox.chamfer_inner_loop 1 0).map (CurrentLimitBox.faceCoord 1 0) =
      [-CurrentLimitBox.sw_hh, CurrentLimitBox.sw_hh, CurrentLimitBox.sw_hh,
       -CurrentLimitBox.sw_hh, -CurrentLimitBox.sw_hh] ∧
    CurrentLimitBox.chamfer_inner_loop 1 0 =
      (CurrentLimitBox.chamfer_face_cutout_loop 1 0).map
        (CurrentLimitBox.translate_inward 1 0 CurrentLimitBox.SWITCH_CHAMFER_DEPTH) ∧
    CurrentLimitBox.outer_hw = CurrentLimitBox.sw_hw + CurrentLimitBox.SWITCH_CHAMFER_DEPTH ∧
    CurrentLimitBox.outer_hh = CurrentLimitBox.sw_hh + CurrentLimitBox.SWITCH_CHAMFER_DEPTH) :=
  ⟨by simp, c9_chamfer_loft_invariant 1 0 (by simp)⟩

/-- Claim C6: the V-groove profile's base width equals the V-tongue base
width plus one (hence is at least tongue width + 1), and the groove's apex
depth below the flange top equals the tongue's depth below the holder base. -/
theorem c6_groove_tongue_clearance :
    SplineBracket.VGROOVE_WIDTH = SplineBracket.TONGUE_WIDTH + 1 ∧
    SplineBracket.TONGUE_WIDTH + 1 ≤
      SplineBracket.VGROOVE_Z_RIGHT - SplineBracket.VGROOVE_Z_LEFT ∧
    SplineBracket.VGROOVE_Z_RIGHT - SplineBracket.VGROOVE_Z_LEFT =
      SplineBracket.VGROOVE_WIDTH ∧
    SplineBracket.TONGUE_X_RIGHT - SplineBracket.TONGUE_X_LEFT =
      SplineBracket.TONGUE_WIDTH ∧
    SplineBracket.VGROOVE_DEPTH = SplineBracket.TONGUE_DEPTH := by
  norm_num [SplineBracket.VGROOVE_WIDTH, SplineBracket.TONGUE_WIDTH,
    SplineBracket.VGROOVE_Z_RIGHT, SplineBracket.VGROOVE_Z_LEFT,
    SplineBracket.TONGUE_X_RIGHT, SplineBracket.TONGUE_X_LEFT,
    SplineBracket.VGROOVE_DEPTH, SplineBracket.TONGUE_DEPTH,
    SplineBracket.LOWER_BOLT_Z, SplineBracket.HOLDER_BOLT_X,
    SplineBracket.PART_WIDTH, SplineBracket.PART_DEPTH]

/-- Claim C10: the V-groove cutting profile's base edge sits at Y = +1 (one
unit above the flange top surface at Y = 0, an overshoot like the trapezoid
groove's), so the opening actually cut at the flange surface is
VGROOVE_WIDTH * VGROOVE_DEPTH / (VGROOVE_DEPTH + 1) = 8.25 units wide —
narrower than VGROOVE_WIDTH = 11 and than the tongue base width 10. -/
theorem c10_vgroove_effective_opening :
    SplineBracket.vgroove_pts.map Vec3.y = [1, 1, -SplineBracket.VGROOVE_DEPTH, 1] ∧
    SplineBracket.vgroove_opening_width_at 1 = SplineBracket.VGROOVE_WIDTH ∧
    SplineBracket.vgroove_opening_width_at 0 =
      SplineBracket.VGROOVE_WIDTH * SplineBracket.VGROOVE_DEPTH /
        (SplineBracket.VGROOVE_DEPTH + 1) ∧
    SplineBracket.vgroove_opening_width_at 0 = 8.25 ∧
    SplineBracket.vgroove_opening_width_at 0 < SplineBracket.VGROOVE_WIDTH ∧
    SplineBracket.vgroove_opening_width_at 0 < SplineBracket.TONGUE_WIDTH := by
  refine ⟨rfl, ?_, ?_, ?_, ?_, ?_⟩ <;>
    norm_num [SplineBracket.vgroove_opening_width_at, SplineBracket.vgroove_left_z_at,
      SplineBracket.vgroove_right_z_at, SplineBracket.VGROOVE_Z_LEFT,
      SplineBracket.VGROOVE_Z_RIGHT, SplineBracket.VGROOVE_WIDTH,
      SplineBracket.VGROOVE_DEPTH, SplineBracket.TONGUE_WIDTH,
      SplineBracket.LOWER_BOLT_Z, SplineBracket.PART_DEPTH]

end CADlayout
